import Mathlib

/-!
Shallow embedding of the trs-pricer core pipeline (simulation, cash flows,
valuation, decision engine) and proofs about it.

Modelling conventions:
* Python floats are modelled as rationals (`ℚ`); Python `int` as `ℤ`.
* Division of Python scalars raises `ZeroDivisionError` on a zero denominator,
  so functions whose source divides Python scalars by a data-dependent
  quantity return `Except String _`.  Division of numpy float64 values (the
  price-grid entries) never raises: at a zero denominator numpy yields
  non-finite floats (inf/NaN, with a RuntimeWarning only).  Non-finite floats
  have no rational counterpart, so that single point (a zero start price) is
  outside the value model and no theorem evaluates the flows there.
* Transcendental float functions (`np.exp`, `math.sqrt`, `x ** 0.7`) are taken
  as explicit function parameters of type `ℚ → ℚ`: each is some fixed
  float-valued function, and every theorem below holds for all of them.
* `np.random.standard_normal` draws are modelled as an explicit draw stream
  `Z : ℕ → ℕ → ℚ` (path index, period index); `np.random.seed` makes the
  stream a deterministic function of the seed, which is how the determinism
  results are phrased.
-/

set_option autoImplicit false
set_option linter.unusedVariables false

namespace TRS

/-- `Except`-valued map over a list, evaluating left to right and stopping at
the first error; this matches the evaluation order of the Python list
comprehensions it models. -/
def mapE {α β : Type} (f : α → Except String β) : List α → Except String (List β)
  | [] => .ok []
  | a :: l => do
    let b ← f a
    let bs ← mapE f l
    return b :: bs

/-- Python `int(x)` for a float `x`: truncation toward zero. -/
def pyInt (x : ℚ) : ℤ := if 0 ≤ x then ⌊x⌋ else ⌈x⌉

/-! ### config.py constants -/

def DEFAULT_BENCHMARK_RATE : ℚ := 5 / 100
def DEFAULT_VOLATILITY : ℚ := 25 / 100
def DEFAULT_TENOR : ℚ := 1
def DECISION_NPV_GREEN_THRESHOLD : ℚ := 1 / 100
def DECISION_NPV_YELLOW_THRESHOLD : ℚ := 5 / 1000
def DECISION_VAR_GREEN_THRESHOLD : ℚ := 40 / 100
def DECISION_VAR_YELLOW_THRESHOLD : ℚ := 55 / 100
def DECISION_EPE_GREEN_THRESHOLD : ℚ := 10 / 100
def DECISION_EPE_YELLOW_THRESHOLD : ℚ := 20 / 100

/-! ### cash_flows.py — CashFlowEngine -/

/-- One row of a per-path cash-flow ledger (one row of the DataFrame built in
`CashFlowEngine.calculate_cash_flows`). -/
structure CFRow where
  period : ℤ
  period_start_price : ℚ
  period_end_price : ℚ
  total_return_cash_flow : ℚ
  net_funding_cash_flow : ℚ
  net_cash_flow : ℚ
  deriving DecidableEq, Repr

instance : Inhabited CFRow := ⟨⟨0, 0, 0, 0, 0, 0⟩⟩

/-- `CashFlowEngine.calculate_total_return_leg`:
`(end - start)/start * notional + (dividend_yield/payment_frequency) * notional`.
The price-appreciation division operates on numpy float64 grid values and
never raises — at a zero start price the program produces non-finite floats
(inf/NaN) with a RuntimeWarning; `ℚ` cannot represent those, so the value at
that point follows the rational zero-division convention and no theorem
evaluates it.  The dividend division is Python-scalar and raises
`ZeroDivisionError` when the payment frequency is zero. -/
def calculate_total_return_leg (period_start_price period_end_price dividend_yield
    notional : ℚ) (payment_frequency : ℤ) : Except String ℚ :=
  if (payment_frequency : ℚ) = 0 then
    .error "ZeroDivisionError: float division by zero"
  else
    .ok ((period_end_price - period_start_price) / period_start_price * notional
      + dividend_yield / (payment_frequency : ℚ) * notional)

/-- `CashFlowEngine.calculate_funding_leg`:
`(effective_funding_rate/payment_frequency) * notional`; the price arguments
are accepted but never used. -/
def calculate_funding_leg (period_start_price period_end_price
    effective_funding_rate notional : ℚ) (payment_frequency : ℤ) : Except String ℚ :=
  if (payment_frequency : ℚ) = 0 then
    .error "ZeroDivisionError: float division by zero"
  else
    .ok (effective_funding_rate / (payment_frequency : ℚ) * notional)

/-- Assembles ledger rows from the per-period data, numbering periods from
`k` upward (the source uses `range(1, num_periods + 1)`). -/
def buildRows : ℤ → List (ℚ × ℚ) → List ℚ → List ℚ → List ℚ → List CFRow
  | k, (s, e) :: ps, t :: ts, f :: fs, n :: ns =>
      ⟨k, s, e, t, f, n⟩ :: buildRows (k + 1) ps ts fs ns
  | _, _, _, _, _ => []

/-- Body of the per-path loop in `CashFlowEngine.calculate_cash_flows`:
start prices are `path[:-1]`, end prices `path[1:]`, the two legs are
computed per period, and `net = funding - total_return`. -/
def path_cash_flows (notional dividend_yield effective_funding_rate : ℚ)
    (payment_frequency : ℤ) (path : List ℚ) : Except String (List CFRow) := do
  let pairs := path.dropLast.zip path.tail
  let trs ← mapE (fun se =>
    calculate_total_return_leg se.1 se.2 dividend_yield notional payment_frequency) pairs
  let funds ← mapE (fun se =>
    calculate_funding_leg se.1 se.2 effective_funding_rate notional payment_frequency) pairs
  let nets := List.zipWith (fun fu tr => fu - tr) funds trs
  return buildRows 1 pairs trs funds nets

/-- `CashFlowEngine.calculate_cash_flows`: one ledger per simulated path.
The numpy price grid is rectangular, so each row's period count is its own
length minus one. -/
def calculate_cash_flows (price_paths : List (List ℚ))
    (notional dividend_yield effective_funding_rate : ℚ)
    (payment_frequency : ℤ) : Except String (List (List CFRow)) :=
  mapE (path_cash_flows notional dividend_yield effective_funding_rate payment_frequency)
    price_paths

/-! ### valuation.py — ValuationEngine

Discounting is pure rational arithmetic; `benchmark_rate / payment_frequency`
uses total division (the orchestrator guarantees a nonzero frequency). -/

/-- `ValuationEngine._discount_cash_flows`: discount factor for the `k`-th
listed flow is `(1 + period_rate) ^ (-(start_period + k))`. -/
def _discount_cash_flows (cash_flows : List ℚ) (period_rate : ℚ)
    (start_period : ℤ) : ℚ :=
  if cash_flows = [] then 0
  else (cash_flows.enum.map
    (fun p => p.2 * (1 + period_rate) ^ (-(start_period + (p.1 : ℤ))))).sum

/-- `ValuationEngine.calculate_npv`: net cash flows discounted at
`benchmark_rate / payment_frequency` per period, starting at period 1. -/
def calculate_npv (cash_flows_series : List ℚ) (benchmark_rate : ℚ)
    (payment_frequency : ℤ) : ℚ :=
  if cash_flows_series = [] then 0
  else _discount_cash_flows cash_flows_series
    (benchmark_rate / (payment_frequency : ℚ)) 1

/-- `ValuationEngine.calculate_marked_to_market_value`: PV at `current_period`
of the net cash flows from that period onward, re-based to start at 1.
(Callers always pass `current_period ≥ 1`; Python's negative-index slicing is
never exercised.) -/
def calculate_marked_to_market_value (cash_flows_df : List CFRow)
    (benchmark_rate : ℚ) (payment_frequency : ℤ) (current_period : ℤ) : ℚ :=
  if current_period > (cash_flows_df.length : ℤ) then 0
  else
    let future_flows := (cash_flows_df.drop (current_period - 1).toNat).map
      (·.net_cash_flow)
    if future_flows = [] then 0
    else _discount_cash_flows future_flows
      (benchmark_rate / (payment_frequency : ℚ)) 1

/-- `ValuationEngine.calculate_exposure_metrics`: the EPE profile; entry `p`
is the cross-path average of `max(0, MTM at period p+1)`.  (The companion
dates array is wall-clock derived presentation data and is not modelled.) -/
def calculate_exposure_metrics (cash_flows_list : List (List CFRow))
    (benchmark_rate : ℚ) (payment_frequency : ℤ) : List ℚ :=
  match cash_flows_list with
  | [] => []
  | d0 :: _ =>
    (List.range d0.length).map (fun (p : ℕ) =>
      ((cash_flows_list.map (fun df =>
        max 0 (calculate_marked_to_market_value df benchmark_rate
          payment_frequency ((p : ℤ) + 1)))).sum) / (cash_flows_list.length : ℚ))

/-- `np.mean` over a 1-D float array: `NaN` (modelled as `none`) on an empty
array, otherwise the arithmetic mean.  It warns but does not raise. -/
def npMean (l : List ℚ) : Option ℚ :=
  if l = [] then none else some (l.sum / (l.length : ℚ))

/-- `np.std` (population): `NaN` on an empty array, otherwise the float
square root (abstract parameter `sqrtF`) of the population variance. -/
def npStd (sqrtF : ℚ → ℚ) (l : List ℚ) : Option ℚ :=
  if l = [] then none
  else some (sqrtF (((l.map (fun x => (x - l.sum / (l.length : ℚ)) ^ 2)).sum)
    / (l.length : ℚ)))

/-- `np.percentile` with linear interpolation between order statistics.  On an
empty array numpy raises `IndexError`, which is the behaviour the aggregation
boundary relies on. -/
def npPercentile (l : List ℚ) (p : ℚ) : Except String ℚ :=
  if l = [] then
    .error "IndexError: cannot do a non-empty take from an empty axes."
  else
    let sorted := l.mergeSort (fun a b => decide (a ≤ b))
    let rank := p / 100 * ((l.length : ℚ) - 1)
    let i := (⌊rank⌋).toNat
    let frac := rank - (⌊rank⌋ : ℚ)
    let lo := (sorted.get? i).getD 0
    let hi := (sorted.get? (min (i + 1) (l.length - 1))).getD 0
    .ok (lo + frac * (hi - lo))

/-- The summary record built by `ValuationEngine.aggregate_results`
(`npv_mean` / `npv_std` are `NaN`-able, hence `Option`). -/
structure AggSummary where
  npv_mean : Option ℚ
  npv_std : Option ℚ
  npv_percentiles : List ℚ
  mean_periodic_net_cash_flows : List ℚ
  total_return_leg_total : ℚ
  funding_leg_total : ℚ

/-- `ValuationEngine.aggregate_results`.  The per-period mean net flows index
row `p` of every ledger (an `IndexError` if some ledger is shorter than the
first); mean and std of the NPVs are `NaN` on empty input, and the percentile
dictionary raises numpy's `IndexError` on an empty NPV list, so zero
simulations make the whole call fail. -/
def aggregate_results (sqrtF : ℚ → ℚ) (all_simulated_cash_flows : List (List CFRow))
    (npv_list : List ℚ) : Except String AggSummary := do
  let mean_periodic_flows ← match all_simulated_cash_flows with
    | [] => Except.ok ([] : List ℚ)
    | d0 :: _ =>
      if all_simulated_cash_flows.all (fun df => d0.length ≤ df.length) then
        Except.ok ((List.range d0.length).map (fun p =>
          ((all_simulated_cash_flows.map (fun df =>
            ((df.get? p).getD default).net_cash_flow)).sum)
            / (all_simulated_cash_flows.length : ℚ)))
      else Except.error "IndexError: single positional indexer is out-of-bounds"
  let total_return_leg_total : ℚ :=
    if all_simulated_cash_flows = [] then 0
    else ((all_simulated_cash_flows.map (fun df =>
      (df.map (·.total_return_cash_flow)).sum)).sum)
      / (all_simulated_cash_flows.length : ℚ)
  let funding_leg_total : ℚ :=
    if all_simulated_cash_flows = [] then 0
    else ((all_simulated_cash_flows.map (fun df =>
      (df.map (·.net_funding_cash_flow)).sum)).sum)
      / (all_simulated_cash_flows.length : ℚ)
  let m := npMean npv_list
  let sd := npStd sqrtF npv_list
  let pcts ← mapE (npPercentile npv_list) [5, 25, 50, 75, 95]
  return ⟨m, sd, pcts, mean_periodic_flows, total_return_leg_total, funding_leg_total⟩

/-! ### simulation.py — SimulationEngine -/

/-- The GBM price recursion of `simulate_price_paths`:
`P[0] = initial_price`, `P[t+1] = P[t] * exp(drift + diffusion * Z[t])`,
with float `exp` abstract (`expF`) and `Zrow` the path's draw stream. -/
def gbm_price (expF : ℚ → ℚ) (drift_term diffusion_term : ℚ) (Zrow : ℕ → ℚ)
    (initial_price : ℚ) : ℕ → ℚ
  | 0 => initial_price
  | t + 1 => gbm_price expF drift_term diffusion_term Zrow initial_price t
      * expF (drift_term + diffusion_term * Zrow t)

/-- `SimulationEngine.simulate_price_paths`.  `Z i t` is the standard-normal
draw for path `i`, period `t+1` (deterministic once `np.random.seed` has fixed
the stream); `expF` and `sqrtF` stand for float `np.exp` / `np.sqrt`.
A zero frequency raises `ZeroDivisionError` at the time-step division and a
negative period or simulation count raises inside numpy's array allocation;
there is no input validation of price, volatility, tenor, frequency or
simulation count beyond those arithmetic failures. -/
def simulate_price_paths (Z : ℕ → ℕ → ℚ) (expF sqrtF : ℚ → ℚ)
    (initial_price tenor volatility : ℚ) (payment_frequency : ℤ)
    (num_simulations : ℤ) (mu : ℚ) : Except String (List (List ℚ)) :=
  if (payment_frequency : ℚ) = 0 then
    .error "ZeroDivisionError: float division by zero"
  else
    let dt := 1 / (payment_frequency : ℚ)
    let num_periods := pyInt (tenor * (payment_frequency : ℚ))
    if num_simulations < 0 ∨ num_periods < 0 then
      .error "ValueError: negative dimensions are not allowed"
    else
      let drift_term := (mu - 1 / 2 * volatility ^ 2) * dt
      let diffusion_term := volatility * sqrtF dt
      .ok ((List.range num_simulations.toNat).map (fun i =>
        (List.range (num_periods.toNat + 1)).map
          (gbm_price expF drift_term diffusion_term (Z i) initial_price)))

/-! ### trs_pricer.py — TRSPricer input resolution -/

/-- The loosely-typed user parameter dictionary consumed by
`TRSPricer.get_user_inputs`; `none` models an absent key. -/
structure UserParams where
  ticker : Option String
  notional : Option ℚ
  tenor : Option ℚ
  payment_frequency : Option ℚ
  num_simulations : Option ℚ
  desk_position : Option String
  initial_price : Option ℚ
  dividend_yield : Option ℚ
  volatility : Option ℚ
  funding_spread : Option ℚ
  benchmark_rate : Option ℚ
  deriving DecidableEq

/-- The fully resolved parameter record returned by
`TRSPricer.get_user_inputs`. -/
structure ResolvedParams where
  ticker : String
  notional : ℚ
  tenor : ℚ
  payment_frequency : ℤ
  num_simulations : ℤ
  initial_price : ℚ
  dividend_yield : ℚ
  volatility : ℚ
  funding_spread : ℚ
  benchmark_rate : ℚ
  effective_funding_rate : ℚ
  desk_position : String
  deriving DecidableEq

/-- `TRSPricer._validate_positive`. -/
def _validate_positive (value : ℚ) (name : String) : Except String ℚ :=
  if value ≤ 0 then .error (name ++ " must be positive") else .ok value

/-- `TRSPricer._validate_non_negative`. -/
def _validate_non_negative (value : ℚ) (name : String) : Except String ℚ :=
  if value < 0 then .error (name ++ " must be non-negative") else .ok value

/-- Python `str.upper()`: character-wise upper-casing. -/
def pyUpper (s : String) : String := ⟨s.data.map Char.toUpper⟩

/-- Python `str.strip()`: removes leading and trailing whitespace. -/
def pyStrip (s : String) : String :=
  ⟨((s.data.dropWhile Char.isWhitespace).reverse.dropWhile Char.isWhitespace).reverse⟩

/-- `TRSPricer._get_param_or_fetch`: use the explicitly supplied value (after
validation) when the key is present, otherwise fetch from the market-data
collaborator (unvalidated). -/
def _get_param_or_fetch (value : Option ℚ) (validator : ℚ → String → Except String ℚ)
    (key : String) (fetch : String → ℚ) (ticker : String) : Except String ℚ :=
  match value with
  | some v => validator v key
  | none => .ok (fetch ticker)

/-- `TRSPricer.get_user_inputs`: missing-key check, desk-position and ticker
checks, positivity validation of the required numeric fields (frequency and
simulation count are then truncated to `int`), and override-or-fetch
resolution of the market-data fields — an explicitly supplied override is
validated, a fetched value is not.  The four `fetch_*` collaborators are
abstract pure functions of the ticker. -/
def get_user_inputs (fetch_price fetch_div fetch_vol fetch_spread : String → ℚ)
    (params : UserParams) : Except String ResolvedParams :=
  if params.ticker.isNone ∨ params.notional.isNone ∨ params.tenor.isNone
      ∨ params.payment_frequency.isNone ∨ params.num_simulations.isNone then
    .error "Missing required parameters"
  else
    let desk := params.desk_position.getD "receiver"
    if desk ≠ "payer" ∧ desk ≠ "receiver" then
      .error "desk_position must be payer or receiver"
    else
      let tick := pyStrip (pyUpper (params.ticker.getD ""))
      if tick = "" then .error "ticker cannot be empty"
      else do
        let notional ← _validate_positive (params.notional.getD 0) "notional"
        let tenor ← _validate_positive (params.tenor.getD 0) "tenor"
        let pf ← _validate_positive (params.payment_frequency.getD 0) "payment_frequency"
        let ns ← _validate_positive (params.num_simulations.getD 0) "num_simulations"
        let initial_price ← _get_param_or_fetch params.initial_price
          _validate_positive "initial_price" fetch_price tick
        let dividend_yield ← _get_param_or_fetch params.dividend_yield
          _validate_non_negative "dividend_yield" fetch_div tick
        let volatility ← _get_param_or_fetch params.volatility
          _validate_positive "volatility" fetch_vol tick
        let funding_spread ← _get_param_or_fetch params.funding_spread
          _validate_non_negative "funding_spread" fetch_spread tick
        let benchmark_rate ← _get_param_or_fetch params.benchmark_rate
          _validate_non_negative "benchmark_rate" (fun _ => DEFAULT_BENCHMARK_RATE) tick
        return { ticker := tick, notional := notional, tenor := tenor,
                 payment_frequency := pyInt pf, num_simulations := pyInt ns,
                 initial_price := initial_price, dividend_yield := dividend_yield,
                 volatility := volatility, funding_spread := funding_spread,
                 benchmark_rate := benchmark_rate,
                 effective_funding_rate := benchmark_rate + funding_spread,
                 desk_position := desk }

/-! ### decision_engine.py — TRSDecisionEngine -/

/-- The fields of the pipeline summary dictionary that
`TRSDecisionEngine` reads (the orchestrator always populates them). -/
structure SummaryResults where
  notional : ℚ
  tenor : ℚ
  funding_spread : ℚ
  npv_mean : ℚ
  volatility : ℚ
  npv_5th : ℚ
  peak_epe : ℚ

/-- `TRSDecisionEngine.calculate_var_scale_factor` with its default baselines
(volatility 0.25, tenor 1) and clamp bounds [0.5, 4.0]; `sqrtF` is float
`math.sqrt`. -/
def calculate_var_scale_factor (sqrtF : ℚ → ℚ) (volatility tenor : ℚ) : ℚ :=
  let vol_part := if DEFAULT_VOLATILITY > 0 then volatility / DEFAULT_VOLATILITY else 1
  let tenor_part := if DEFAULT_TENOR > 0 then sqrtF (tenor / DEFAULT_TENOR) else 1
  max (1 / 2) (min 4 (vol_part * tenor_part))

/-- `TRSDecisionEngine.calculate_epe_scale_factor`; `rpow07` is the float map
`x ↦ x ** 0.7`. -/
def calculate_epe_scale_factor (rpow07 : ℚ → ℚ) (volatility tenor : ℚ) : ℚ :=
  let vol_part := if DEFAULT_VOLATILITY > 0 then volatility / DEFAULT_VOLATILITY else 1
  let tenor_part := if DEFAULT_TENOR > 0 then rpow07 (tenor / DEFAULT_TENOR) else 1
  max (1 / 2) (min 4 (vol_part * tenor_part))

/-- `TRSDecisionEngine.extract_key_metrics`: `(npv_pct, var_pct, epe_pct)`,
each 0 when the notional is not positive. -/
def extract_key_metrics (s : SummaryResults) : ℚ × ℚ × ℚ :=
  (if s.notional > 0 then s.npv_mean / s.notional else 0,
   if s.notional > 0 then |s.npv_5th| / s.notional else 0,
   if s.notional > 0 then s.peak_epe / s.notional else 0)

/-- `TRSDecisionEngine.evaluate_metric`: direction inferred from the threshold
ordering (green > yellow means higher-is-better). -/
def evaluate_metric (value threshold_green threshold_yellow : ℚ) : String :=
  if threshold_green > threshold_yellow then
    if value ≥ threshold_green then "green"
    else if value ≥ threshold_yellow then "yellow"
    else "red"
  else
    if value ≤ threshold_green then "green"
    else if value ≤ threshold_yellow then "yellow"
    else "red"

/-- The `status_priority` table in `TRSDecisionEngine.evaluate_trade`. -/
def status_priority (s : String) : ℕ :=
  if s = "red" then 3 else if s = "yellow" then 2 else 1

/-- Python's `max(list, key=...)`: keeps the first element whose key is
strictly maximal (later elements replace only on strictly greater key). -/
def py_max_status (first : String) (rest : List String) : String :=
  rest.foldl (fun acc x => if status_priority x > status_priority acc then x else acc) first

/-- The adjustment recommendations dictionary; a `none` field means the
corresponding key is absent. Pairs are `(delta_bps, new_spread)`,
`(reduction_pct, new_notional)` and `(collateral_pct, collateral_amount)`. -/
structure Adjustments where
  spread_adjustment : Option (ℚ × ℚ)
  notional_reduction : Option (ℚ × ℚ)
  collateral_requirement : Option (ℚ × ℚ)

/-- `TRSDecisionEngine.calculate_adjustments`. -/
def calculate_adjustments (sqrtF rpow07 : ℚ → ℚ) (s : SummaryResults)
    (issues : List String) : Adjustments :=
  let var_green := DECISION_VAR_GREEN_THRESHOLD
    * calculate_var_scale_factor sqrtF s.volatility s.tenor
  let epe_green := DECISION_EPE_GREEN_THRESHOLD
    * calculate_epe_scale_factor rpow07 s.volatility s.tenor
  let metrics := extract_key_metrics s
  let spread :=
    if "npv_too_low" ∈ issues then
      if s.notional > 0 ∧ s.tenor > 0 then
        let delta_npv := DECISION_NPV_GREEN_THRESHOLD * s.notional - s.npv_mean
        let delta_spread_bps := delta_npv / (s.notional * s.tenor) * 10000
        some (delta_spread_bps, max 0 (s.funding_spread + delta_spread_bps / 10000))
      else none
    else none
  let notional_red :=
    if "var_too_high" ∈ issues then
      let current_var := metrics.2.1 * s.notional
      if current_var > 0 then
        let target_var := var_green * s.notional
        let reduction_pct := (current_var - target_var) / current_var * 100
        some (max 0 (min 100 reduction_pct), max 0 (s.notional * (1 - reduction_pct / 100)))
      else none
    else none
  let collateral :=
    if "epe_too_high" ∈ issues then
      if s.notional > 0 then
        let current_epe := metrics.2.2 * s.notional
        let target_epe := epe_green * s.notional
        let collateral_pct := (current_epe - target_epe) / s.notional * 100
        some (max 0 collateral_pct, max 0 (s.notional * (collateral_pct / 100)))
      else none
    else none
  ⟨spread, notional_red, collateral⟩

/-- The decision record returned by `TRSDecisionEngine.evaluate_trade`
(threshold echo and volatility info fields are presentation data and are
not modelled). -/
structure DecisionResult where
  overall_status : String
  npv_status : String
  var_status : String
  epe_status : String
  issues : List String
  adjustments : Adjustments

/-- `TRSDecisionEngine.evaluate_trade`: metric extraction, threshold scaling
for VaR/EPE, per-metric traffic lights, worst-of-three overall status, issue
tags, and adjustments when any issue is flagged. -/
def evaluate_trade (sqrtF rpow07 : ℚ → ℚ) (s : SummaryResults) : DecisionResult :=
  let metrics := extract_key_metrics s
  let var_scale := calculate_var_scale_factor sqrtF s.volatility s.tenor
  let epe_scale := calculate_epe_scale_factor rpow07 s.volatility s.tenor
  let npv_status := evaluate_metric metrics.1
    DECISION_NPV_GREEN_THRESHOLD DECISION_NPV_YELLOW_THRESHOLD
  let var_status := evaluate_metric metrics.2.1
    (DECISION_VAR_GREEN_THRESHOLD * var_scale) (DECISION_VAR_YELLOW_THRESHOLD * var_scale)
  let epe_status := evaluate_metric metrics.2.2
    (DECISION_EPE_GREEN_THRESHOLD * epe_scale) (DECISION_EPE_YELLOW_THRESHOLD * epe_scale)
  let overall := py_max_status npv_status [var_status, epe_status]
  let issues := (if npv_status ≠ "green" then ["npv_too_low"] else [])
    ++ (if var_status ≠ "green" then ["var_too_high"] else [])
    ++ (if epe_status ≠ "green" then ["epe_too_high"] else [])
  let adjustments :=
    if issues = [] then ⟨none, none, none⟩
    else calculate_adjustments sqrtF rpow07 s issues
  ⟨overall, npv_status, var_status, epe_status, issues, adjustments⟩

/-! ### Helper lemmas -/

lemma except_bind_error {ε α β : Type} (e : ε) (f : α → Except ε β) :
    (Except.error e >>= f) = Except.error e := rfl

lemma except_bind_ok {ε α β : Type} (a : α) (f : α → Except ε β) :
    (Except.ok a >>= f) = f a := rfl

lemma except_map_error {ε α β : Type} (f : α → β) (e : ε) :
    (f <$> (Except.error e : Except ε α)) = Except.error e := rfl

lemma except_map_ok {ε α β : Type} (f : α → β) (a : α) :
    (f <$> (Except.ok a : Except ε α)) = Except.ok (f a) := rfl

lemma mapE_ok_forall {α β : Type} (g : α → Except String β) (P : β → Prop)
    (hg : ∀ x y, g x = .ok y → P y) :
    ∀ (l : List α) (ys : List β), mapE g l = .ok ys → ∀ y ∈ ys, P y := by
  intro l
  induction l with
  | nil =>
    intro ys h y hy
    simp only [mapE] at h
    cases h
    simp at hy
  | cons a t ih =>
    intro ys h y hy
    simp only [mapE] at h
    cases hga : g a with
    | error e => rw [hga] at h; simp [except_bind_error] at h
    | ok b =>
      rw [hga] at h
      cases hmt : mapE g t with
      | error e => rw [hmt] at h; simp [except_bind_ok, except_map_error] at h
      | ok bs =>
        rw [hmt] at h
        simp only [except_bind_ok, except_map_ok] at h
        cases h
        rcases List.mem_cons.mp hy with rfl | hy'
        · exact hg a y hga
        · exact ih bs hmt y hy'

lemma mapE_ok_iff {α β : Type} (g : α → Except String β) :
    ∀ l : List α, (∃ ys, mapE g l = .ok ys) ↔ ∀ x ∈ l, ∃ y, g x = .ok y := by
  intro l
  induction l with
  | nil => simp [mapE]
  | cons a t ih =>
    constructor
    · rintro ⟨ys, h⟩ x hx
      simp only [mapE] at h
      cases hga : g a with
      | error e => rw [hga] at h; simp [except_bind_error] at h
      | ok b =>
        rw [hga] at h
        cases hmt : mapE g t with
        | error e => rw [hmt] at h; simp [except_bind_ok, except_map_error] at h
        | ok bs =>
          rcases List.mem_cons.mp hx with rfl | hx'
          · exact ⟨b, hga⟩
          · exact (ih.mp ⟨bs, hmt⟩) x hx'
    · intro hall
      obtain ⟨b, hb⟩ := hall a (List.mem_cons_self a t)
      obtain ⟨bs, hbs⟩ := ih.mpr (fun x hx => hall x (List.mem_cons_of_mem a hx))
      exact ⟨b :: bs, by simp only [mapE]; rw [hb, hbs]; rfl⟩

lemma buildRows_funding_mem :
    ∀ (k : ℤ) (ps : List (ℚ × ℚ)) (ts fs ns : List ℚ) (row : CFRow),
      row ∈ buildRows k ps ts fs ns → row.net_funding_cash_flow ∈ fs := by
  intro k ps
  induction ps generalizing k with
  | nil => intro ts fs ns row h; simp [buildRows] at h
  | cons p ps ih =>
    intro ts fs ns row h
    obtain ⟨s, e⟩ := p
    cases ts with
    | nil => simp [buildRows] at h
    | cons t ts =>
      cases fs with
      | nil => simp [buildRows] at h
      | cons f fs =>
        cases ns with
        | nil => simp [buildRows] at h
        | cons n ns =>
          simp only [buildRows, List.mem_cons] at h
          rcases h with rfl | h
          · exact List.mem_cons_self _ _
          · exact List.mem_cons_of_mem _ (ih (k + 1) ts fs ns row h)

/-- C6: for a single flat period (start = end = 100) with dividend_yield = 0,
notional = 1,000,000, payment_frequency = 4 and effective_funding_rate =
0.065, the cash-flow calculator returns total_return_leg_flow = 0,
funding_leg_flow = 16,250 and net_cash_flow = 16,250. -/
theorem flat_path_cash_flow_values :
    calculate_cash_flows [[100, 100]] 1000000 0 (13 / 200) 4 =
      .ok [[⟨1, 100, 100, 0, 16250, 16250⟩]] := by
  simp only [calculate_cash_flows, path_cash_flows, mapE, calculate_total_return_leg,
    calculate_funding_leg]
  norm_num [except_bind_ok, buildRows, List.zipWith]

/-- C3: aggregating valuation statistics over zero simulations (no ledgers,
empty NPV list) fails with numpy's `IndexError` from the percentile
computation rather than returning NaN or zero statistics. -/
theorem aggregate_results_empty_fails (sqrtF : ℚ → ℚ) :
    aggregate_results sqrtF [] [] =
      .error "IndexError: cannot do a non-empty take from an empty axes." := by
  rfl

/-- C10: for every cash-flow ledger (including the empty one) and every
benchmark rate and payment frequency, the marked-to-market value at
current_period = 1 coincides with the NPV of the ledger's net cash flows. -/
theorem mtm_at_period_one_eq_npv (ledger : List CFRow) (benchmark_rate : ℚ)
    (payment_frequency : ℤ) :
    calculate_marked_to_market_value ledger benchmark_rate payment_frequency 1 =
      calculate_npv (ledger.map (·.net_cash_flow)) benchmark_rate payment_frequency := by
  cases ledger with
  | nil => rfl
  | cons a l =>
    unfold calculate_marked_to_market_value calculate_npv
    rw [if_neg (by simp only [List.length_cons]; push_cast; omega)]
    simp

/-- C8: every entry of the EPE profile is non-negative, for every list of
cash-flow ledgers and every benchmark rate and payment frequency, because
each entry averages `max(0, MTM)` values. -/
theorem epe_profile_nonneg (cash_flows_list : List (List CFRow))
    (benchmark_rate : ℚ) (payment_frequency : ℤ) (x : ℚ)
    (hx : x ∈ calculate_exposure_metrics cash_flows_list benchmark_rate payment_frequency) :
    0 ≤ x := by
  cases cash_flows_list with
  | nil => simp [calculate_exposure_metrics] at hx
  | cons d0 rest =>
    simp only [calculate_exposure_metrics, List.mem_map] at hx
    obtain ⟨p, hp, rfl⟩ := hx
    apply div_nonneg
    · apply List.sum_nonneg
      intro y hy
      simp only [List.mem_map] at hy
      obtain ⟨df, hdf, rfl⟩ := hy
      exact le_max_left 0 _
    · positivity

/-- Witness for C8 at a concrete one-ledger, one-period input. -/
theorem epe_profile_nonneg_witness :
    (16250 : ℚ) ∈ calculate_exposure_metrics [[⟨1, 100, 100, 0, 16250, 16250⟩]] 0 4
      ∧ (0 : ℚ) ≤ 16250 := by
  have hmtm : calculate_marked_to_market_value [⟨1, 100, 100, 0, 16250, 16250⟩] 0 4 1 =
      16250 := by
    simp [calculate_marked_to_market_value, _discount_cash_flows, List.enum]
  have hmax : (0 : ℚ) ⊔ 16250 = 16250 := max_eq_right (by norm_num)
  have hprof : calculate_exposure_metrics [[⟨1, 100, 100, 0, 16250, 16250⟩]] 0 4 =
      [16250] := by
    simp only [calculate_exposure_metrics]
    norm_num [List.range_succ, hmtm, hmax]
  refine ⟨?_, epe_profile_nonneg [[⟨1, 100, 100, 0, 16250, 16250⟩]] 0 4 16250 ?_⟩ <;>
    rw [hprof] <;> simp

lemma path_cash_flows_funding (notional dividend_yield effective_funding_rate : ℚ)
    (payment_frequency : ℤ) (path : List ℚ) (rows : List CFRow)
    (h : path_cash_flows notional dividend_yield effective_funding_rate
      payment_frequency path = .ok rows) :
    ∀ row ∈ rows, row.net_funding_cash_flow =
      effective_funding_rate / (payment_frequency : ℚ) * notional := by
  intro row hrow
  simp only [path_cash_flows] at h
  cases htr : mapE (fun se =>
      calculate_total_return_leg se.1 se.2 dividend_yield notional payment_frequency)
      (path.dropLast.zip path.tail) with
  | error e => rw [htr] at h; simp [except_bind_error] at h
  | ok trs =>
    rw [htr] at h
    cases hfd : mapE (fun se =>
        calculate_funding_leg se.1 se.2 effective_funding_rate notional payment_frequency)
        (path.dropLast.zip path.tail) with
    | error e => rw [hfd] at h; simp [except_bind_ok, except_bind_error] at h
    | ok funds =>
      rw [hfd] at h
      simp only [except_bind_ok] at h
      cases h
      have hmem := buildRows_funding_mem 1 _ _ _ _ row hrow
      refine mapE_ok_forall _
        (fun y => y = effective_funding_rate / (payment_frequency : ℚ) * notional)
        ?_ _ _ hfd _ hmem
      intro x y hxy
      unfold calculate_funding_leg at hxy
      by_cases hf : ((payment_frequency : ℤ) : ℚ) = 0
      · rw [if_pos hf] at hxy; cases hxy
      · rw [if_neg hf] at hxy; cases hxy; rfl

/-- C1: for every period of every path and all inputs, the funding leg cash
flow equals (effective_funding_rate / payment_frequency) × notional, whatever
the period's start and end prices are; depreciation is never netted out of
the funding leg. -/
theorem funding_leg_fixed_payment (price_paths : List (List ℚ))
    (notional dividend_yield effective_funding_rate : ℚ) (payment_frequency : ℤ)
    (ledgers : List (List CFRow))
    (h : calculate_cash_flows price_paths notional dividend_yield
      effective_funding_rate payment_frequency = .ok ledgers) :
    ∀ ledger ∈ ledgers, ∀ row ∈ ledger,
      row.net_funding_cash_flow =
        effective_funding_rate / (payment_frequency : ℚ) * notional := by
  refine mapE_ok_forall _
    (fun rows => ∀ row ∈ rows, row.net_funding_cash_flow =
      effective_funding_rate / (payment_frequency : ℚ) * notional) ?_ _ _ h
  intro path rows hpath
  exact path_cash_flows_funding _ _ _ _ _ _ hpath

/-- Witness for C1: a two-period falling path where both periods nevertheless
pay the same fixed funding amount. -/
theorem funding_leg_fixed_payment_witness :
    calculate_cash_flows [[100, 80, 60]] 1000000 0 (13 / 200) 4 =
      .ok [[⟨1, 100, 80, -200000, 16250, 216250⟩, ⟨2, 80, 60, -250000, 16250, 266250⟩]]
    ∧ ∀ ledger ∈ [[(⟨1, 100, 80, -200000, 16250, 216250⟩ : CFRow),
        ⟨2, 80, 60, -250000, 16250, 266250⟩]], ∀ row ∈ ledger,
      row.net_funding_cash_flow = (13 / 200 : ℚ) / ((4 : ℤ) : ℚ) * 1000000 := by
  have hcf : calculate_cash_flows [[100, 80, 60]] 1000000 0 (13 / 200) 4 =
      .ok [[⟨1, 100, 80, -200000, 16250, 216250⟩, ⟨2, 80, 60, -250000, 16250, 266250⟩]] := by
    simp only [calculate_cash_flows, path_cash_flows, mapE, calculate_total_return_leg,
      calculate_funding_leg]
    norm_num [except_bind_ok, buildRows, List.zipWith]
  exact ⟨hcf, funding_leg_fixed_payment _ _ _ _ _ _ hcf⟩

lemma tr_leg_ok (s e dividend_yield notional : ℚ) (payment_frequency : ℤ)
    (hf : ((payment_frequency : ℤ) : ℚ) ≠ 0) :
    ∃ y, calculate_total_return_leg s e dividend_yield notional payment_frequency
      = .ok y := by
  unfold calculate_total_return_leg
  simp [hf]

lemma fund_leg_ok (s e effective_funding_rate notional : ℚ) (payment_frequency : ℤ)
    (hf : ((payment_frequency : ℤ) : ℚ) ≠ 0) :
    ∃ y, calculate_funding_leg s e effective_funding_rate notional payment_frequency
      = .ok y := by
  unfold calculate_funding_leg
  simp [hf]

/-- Counterexample to C2: a negative period start price (−100 ≤ 0) does not
raise any error — the calculator returns an ordinary finite ledger. -/
theorem negative_start_price_returns_ok :
    calculate_cash_flows [[-100, -50]] 1000000 0 (13 / 200) 4 =
      .ok [[⟨1, -100, -50, -500000, 16250, 516250⟩]] := by
  simp only [calculate_cash_flows, path_cash_flows, mapE, calculate_total_return_leg,
    calculate_funding_leg]
  norm_num [except_bind_ok, buildRows, List.zipWith]

/-- C2 (amended): the cash-flow calculator performs no validation of
period start prices and, with a nonzero payment frequency, never raises on
account of them — every price grid yields a ledger list.  For strictly
negative start prices the flows are the finite values of the ordinary
formulas (see the counterexample); at a start price of exactly 0 the numpy
division produces non-finite (inf/NaN) flows with a RuntimeWarning rather
than the division-by-zero error the spec demands. -/
theorem cash_flows_no_price_validation (price_paths : List (List ℚ))
    (notional dividend_yield effective_funding_rate : ℚ) (payment_frequency : ℤ)
    (hf : ((payment_frequency : ℤ) : ℚ) ≠ 0) :
    ∃ ledgers, calculate_cash_flows price_paths notional dividend_yield
      effective_funding_rate payment_frequency = .ok ledgers := by
  unfold calculate_cash_flows
  rw [mapE_ok_iff]
  intro path hpath
  obtain ⟨trs, htrs⟩ := (mapE_ok_iff (fun se =>
      calculate_total_return_leg se.1 se.2 dividend_yield notional payment_frequency)
      (path.dropLast.zip path.tail)).mpr (fun se hse =>
    tr_leg_ok se.1 se.2 dividend_yield notional payment_frequency hf)
  obtain ⟨funds, hfunds⟩ := (mapE_ok_iff (fun se =>
      calculate_funding_leg se.1 se.2 effective_funding_rate notional payment_frequency)
      (path.dropLast.zip path.tail)).mpr (fun se hse =>
    fund_leg_ok se.1 se.2 effective_funding_rate notional payment_frequency hf)
  exact ⟨buildRows 1 (path.dropLast.zip path.tail) trs funds
      (List.zipWith (fun fu tr => fu - tr) funds trs), by
    simp only [path_cash_flows]
    rw [htrs, except_bind_ok, hfunds, except_bind_ok]
    rfl⟩

/-- Witness for C2's amended theorem: a grid containing both a negative and a
zero start price still resolves to a ledger, with no error raised. -/
theorem cash_flows_no_price_validation_witness :
    (((4 : ℤ) : ℚ) ≠ 0)
    ∧ ∃ ledgers, calculate_cash_flows [[(-100 : ℚ), 0, 50]] 1000000 0 (13 / 200) 4
        = .ok ledgers :=
  ⟨by norm_num,
    cash_flows_no_price_validation [[(-100 : ℚ), 0, 50]] 1000000 0 (13 / 200) 4
      (by norm_num)⟩

/-- C7: for positive inputs the simulated grid has `num_simulations` rows,
each with `floor(tenor × payment_frequency) + 1` entries, and every row
starts at the initial price. -/
theorem simulate_grid_shape (Z : ℕ → ℕ → ℚ) (expF sqrtF : ℚ → ℚ)
    (initial_price tenor volatility : ℚ) (payment_frequency num_simulations : ℤ)
    (mu : ℚ) (hP : 0 < initial_price) (hT : 0 < tenor) (hf : 0 < payment_frequency)
    (hN : 0 < num_simulations) :
    ∃ grid, simulate_price_paths Z expF sqrtF initial_price tenor volatility
        payment_frequency num_simulations mu = .ok grid
      ∧ grid.length = num_simulations.toNat
      ∧ ∀ row ∈ grid, row.length = (⌊tenor * (payment_frequency : ℚ)⌋).toNat + 1
        ∧ row.head? = some initial_price := by
  have hfQ : ((payment_frequency : ℤ) : ℚ) ≠ 0 := by
    exact_mod_cast (ne_of_gt hf)
  have hprod : 0 ≤ tenor * ((payment_frequency : ℤ) : ℚ) :=
    le_of_lt (mul_pos hT (by exact_mod_cast hf))
  have hpy : pyInt (tenor * ((payment_frequency : ℤ) : ℚ)) =
      ⌊tenor * ((payment_frequency : ℤ) : ℚ)⌋ := by
    simp [pyInt, hprod]
  have hguard : ¬ (num_simulations < 0
      ∨ pyInt (tenor * ((payment_frequency : ℤ) : ℚ)) < 0) := by
    push_neg
    exact ⟨le_of_lt hN, by rw [hpy]; exact Int.floor_nonneg.mpr hprod⟩
  unfold simulate_price_paths
  rw [if_neg hfQ, if_neg hguard]
  refine ⟨_, rfl, by simp, ?_⟩
  intro row hrow
  simp only [List.mem_map] at hrow
  obtain ⟨i, hi, rfl⟩ := hrow
  constructor
  · simp [hpy]
  · rw [List.range_succ_eq_map, List.map_cons]
    rfl

/-- Witness for C7: with tenor 1 and payment frequency 4 the grid has exactly
5 columns per path. -/
theorem simulate_grid_shape_witness :
    (0 : ℚ) < 100 ∧ (0 : ℚ) < 1 ∧ (0 : ℤ) < 4 ∧ (0 : ℤ) < 2
    ∧ (⌊(1 : ℚ) * ((4 : ℤ) : ℚ)⌋).toNat + 1 = 5
    ∧ ∃ grid, simulate_price_paths (fun _ _ => 0) (fun _ => 1) (fun x => x)
        100 1 (1 / 5) 4 2 0 = .ok grid
      ∧ grid.length = (2 : ℤ).toNat
      ∧ ∀ row ∈ grid, row.length = (⌊(1 : ℚ) * ((4 : ℤ) : ℚ)⌋).toNat + 1
        ∧ row.head? = some 100 :=
  ⟨by norm_num, by norm_num, by norm_num, by norm_num,
    by rw [show ⌊(1 : ℚ) * ((4 : ℤ) : ℚ)⌋ = (4 : ℤ) by norm_num]; rfl,
    simulate_grid_shape (fun _ _ => 0) (fun _ => 1) (fun x => x) 100 1 (1 / 5) 4 2 0
      (by norm_num) (by norm_num) (by norm_num) (by norm_num)⟩

/-- C9: the simulator is a pure function of its draw stream and inputs — two
runs whose streams agree everywhere (as two runs under the same seed do,
since `np.random.seed` fixes the draw sequence) produce identical grids. -/
theorem simulate_deterministic_in_draws (Z1 Z2 : ℕ → ℕ → ℚ) (expF sqrtF : ℚ → ℚ)
    (initial_price tenor volatility : ℚ) (payment_frequency num_simulations : ℤ)
    (mu : ℚ) (hZ : ∀ i j, Z1 i j = Z2 i j) :
    simulate_price_paths Z1 expF sqrtF initial_price tenor volatility
        payment_frequency num_simulations mu =
      simulate_price_paths Z2 expF sqrtF initial_price tenor volatility
        payment_frequency num_simulations mu := by
  have h : Z1 = Z2 := funext fun i => funext fun j => hZ i j
  rw [h]

/-- Witness for C9: two syntactically different but extensionally equal draw
streams yield the same grid. -/
theorem simulate_deterministic_in_draws_witness :
    (∀ i j : ℕ, ((i : ℚ) + j) = ((j : ℚ) + i))
    ∧ simulate_price_paths (fun i j => (i : ℚ) + j) (fun x => x) (fun x => x)
        100 1 (1 / 5) 4 2 0 =
      simulate_price_paths (fun i j => (j : ℚ) + i) (fun x => x) (fun x => x)
        100 1 (1 / 5) 4 2 0 :=
  ⟨fun i j => add_comm _ _,
    simulate_deterministic_in_draws (fun i j => (i : ℚ) + j) (fun i j => (j : ℚ) + i)
      (fun x => x) (fun x => x) 100 1 (1 / 5) 4 2 0 (fun i j => add_comm _ _)⟩

/-- Counterexample to C4: a direct call of the path simulator with a
non-positive initial price (−100) passes no validation and returns a full
price grid instead of failing. -/
theorem simulator_accepts_nonpositive_price :
    simulate_price_paths (fun _ _ => 0) (fun _ => 1) (fun x => x)
        (-100) 1 (1 / 5) 4 1 0 =
      .ok [[-100, -100, -100, -100, -100]] := by
  unfold simulate_price_paths
  have hpy : pyInt ((1 : ℚ) * ((4 : ℤ) : ℚ)) = (4 : ℤ) := by
    norm_num [pyInt]
  rw [if_neg (by norm_num), hpy]
  rw [if_neg (by norm_num)]
  have h1 : (1 : ℤ).toNat = 1 := rfl
  have h4 : (4 : ℤ).toNat = 4 := rfl
  rw [h1, h4]
  norm_num [List.range_succ, gbm_price]

lemma vp_bind_pos {β : Type} (v : ℚ) (name : String) (k : ℚ → Except String β)
    (r : β) (h : (_validate_positive v name >>= k) = .ok r) :
    0 < v ∧ k v = .ok r := by
  unfold _validate_positive at h
  by_cases hv : v ≤ 0
  · rw [if_pos hv] at h
    simp [except_bind_error] at h
  · rw [if_neg hv, except_bind_ok] at h
    exact ⟨not_le.mp hv, h⟩

lemma pof_pos_bind {β : Type} (o : Option ℚ) (name : String) (fetch : String → ℚ)
    (tick : String) (k : ℚ → Except String β) (r : β)
    (h : (_get_param_or_fetch o _validate_positive name fetch tick >>= k) = .ok r) :
    (∀ x, o = some x → 0 < x) ∧ ∃ w, k w = .ok r := by
  cases o with
  | none =>
    rw [_get_param_or_fetch, except_bind_ok] at h
    exact ⟨fun x hx => Option.noConfusion hx, fetch tick, h⟩
  | some v =>
    rw [_get_param_or_fetch] at h
    obtain ⟨hv, hk⟩ := vp_bind_pos v name k r h
    exact ⟨fun x hx => (Option.some_inj.mp hx) ▸ hv, v, hk⟩

lemma any_bind_ok {β : Type} (step : Except String ℚ) (k : ℚ → Except String β)
    (r : β) (h : (step >>= k) = .ok r) : ∃ w, k w = .ok r := by
  cases step with
  | error e => rw [except_bind_error] at h; cases h
  | ok w => rw [except_bind_ok] at h; exact ⟨w, h⟩

/-- C4 (amended): the validation that rejects non-positive inputs lives in
the orchestrator's input resolution, not in the simulator — whenever
`get_user_inputs` succeeds, the required numeric fields were positive and any
explicitly supplied initial price or volatility override was positive, so a
non-positive value among them makes resolution fail before any simulation. -/
theorem get_user_inputs_ok_implies_positive
    (fetch_price fetch_div fetch_vol fetch_spread : String → ℚ)
    (params : UserParams) (r : ResolvedParams)
    (h : get_user_inputs fetch_price fetch_div fetch_vol fetch_spread params = .ok r) :
    (∀ x, params.notional = some x → 0 < x)
    ∧ (∀ x, params.tenor = some x → 0 < x)
    ∧ (∀ x, params.payment_frequency = some x → 0 < x)
    ∧ (∀ x, params.num_simulations = some x → 0 < x)
    ∧ (∀ x, params.initial_price = some x → 0 < x)
    ∧ (∀ x, params.volatility = some x → 0 < x) := by
  simp only [get_user_inputs] at h
  split at h
  · cases h
  · split at h
    · cases h
    · split at h
      · cases h
      · obtain ⟨h1, h⟩ := vp_bind_pos _ _ _ _ h
        obtain ⟨h2, h⟩ := vp_bind_pos _ _ _ _ h
        obtain ⟨h3, h⟩ := vp_bind_pos _ _ _ _ h
        obtain ⟨h4, h⟩ := vp_bind_pos _ _ _ _ h
        obtain ⟨hip, w1, h⟩ := pof_pos_bind _ _ _ _ _ _ h
        obtain ⟨w2, h⟩ := any_bind_ok _ _ _ h
        obtain ⟨hvol, w3, h⟩ := pof_pos_bind _ _ _ _ _ _ h
        refine ⟨fun x hx => ?_, fun x hx => ?_, fun x hx => ?_, fun x hx => ?_,
          hip, hvol⟩
        · rw [hx] at h1; simpa using h1
        · rw [hx] at h2; simpa using h2
        · rw [hx] at h3; simpa using h3
        · rw [hx] at h4; simpa using h4

/-- Witness for C4's amended theorem: resolution succeeds on an all-positive
parameter set, and the theorem yields the positivity of the supplied
notional. -/
theorem get_user_inputs_ok_implies_positive_witness :
    get_user_inputs (fun _ => 1) (fun _ => 1) (fun _ => 1) (fun _ => 1)
        ⟨some "AAPL", some 1000000, some 1, some 4, some 1000, some "receiver",
          some 100, some 0, some (1 / 4), some (3 / 200), some (1 / 20)⟩ =
      .ok ⟨"AAPL", 1000000, 1, 4, 1000, 100, 0, 1 / 4, 3 / 200, 1 / 20, 13 / 200,
        "receiver"⟩
    ∧ (∀ x : ℚ, some (1000000 : ℚ) = some x → 0 < x) := by
  have htick : pyStrip (pyUpper "AAPL") = "AAPL" := by decide
  have hok : get_user_inputs (fun _ => 1) (fun _ => 1) (fun _ => 1) (fun _ => 1)
      ⟨some "AAPL", some 1000000, some 1, some 4, some 1000, some "receiver",
        some 100, some 0, some (1 / 4), some (3 / 200), some (1 / 20)⟩ =
      .ok ⟨"AAPL", 1000000, 1, 4, 1000, 100, 0, 1 / 4, 3 / 200, 1 / 20, 13 / 200,
        "receiver"⟩ := by
    simp only [get_user_inputs, _validate_positive, _validate_non_negative,
      _get_param_or_fetch, pyInt, Option.getD_some, Option.isNone_some, htick]
    norm_num [except_bind_ok]
    intro hc
    exact absurd hc (by decide)
  exact ⟨hok, (get_user_inputs_ok_implies_positive _ _ _ _ _ _ hok).1⟩

lemma status_priority_le_three (s : String) : status_priority s ≤ 3 := by
  unfold status_priority
  split_ifs <;> omega

lemma py_max_status_red (l : List String) : py_max_status "red" l = "red" := by
  induction l with
  | nil => rfl
  | cons x t ih =>
    unfold py_max_status at ih ⊢
    simp only [List.foldl_cons]
    have hx := status_priority_le_three x
    have hr : status_priority "red" = 3 := by decide
    rw [if_neg (by rw [hr]; omega)]
    exact ih

/-- C5: when the extracted npv_pct is 0.003 (mean NPV = 0.003 × notional,
below the 0.005 yellow threshold) and notional and tenor are positive, the
decision engine marks NPV red, the overall status red, tags "npv_too_low",
and emits a spread adjustment with strictly positive delta_bps. -/
theorem npv_below_yellow_gives_red_and_spread_adjustment
    (sqrtF rpow07 : ℚ → ℚ) (s : SummaryResults)
    (hN : 0 < s.notional) (hT : 0 < s.tenor)
    (hnpv : s.npv_mean = 3 / 1000 * s.notional) :
    (evaluate_trade sqrtF rpow07 s).npv_status = "red"
    ∧ (evaluate_trade sqrtF rpow07 s).overall_status = "red"
    ∧ "npv_too_low" ∈ (evaluate_trade sqrtF rpow07 s).issues
    ∧ ∃ d new_spread,
        (evaluate_trade sqrtF rpow07 s).adjustments.spread_adjustment
          = some (d, new_spread) ∧ 0 < d := by
  have hpct : (extract_key_metrics s).1 = 3 / 1000 := by
    simp only [extract_key_metrics, if_pos hN]
    rw [hnpv, mul_div_assoc, div_self (ne_of_gt hN), mul_one]
  have hst : evaluate_metric (extract_key_metrics s).1 DECISION_NPV_GREEN_THRESHOLD
      DECISION_NPV_YELLOW_THRESHOLD = "red" := by
    rw [hpct]
    norm_num [evaluate_metric, DECISION_NPV_GREEN_THRESHOLD,
      DECISION_NPV_YELLOW_THRESHOLD]
  have hdelta : 0 < (DECISION_NPV_GREEN_THRESHOLD * s.notional - s.npv_mean)
      / (s.notional * s.tenor) * 10000 := by
    have h7 : (0 : ℚ) < DECISION_NPV_GREEN_THRESHOLD * s.notional - s.npv_mean := by
      rw [hnpv]
      simp only [DECISION_NPV_GREEN_THRESHOLD]
      nlinarith
    have := div_pos h7 (mul_pos hN hT)
    nlinarith
  simp only [evaluate_trade]
  refine ⟨hst, ?_, ?_, ?_⟩
  · rw [hst]
    exact py_max_status_red _
  · rw [hst]
    simp
  · rw [hst]
    have hcons : ((if ("red" : String) ≠ "green" then ["npv_too_low"] else [])
        ++ (if evaluate_metric (extract_key_metrics s).2.1
            (DECISION_VAR_GREEN_THRESHOLD * calculate_var_scale_factor sqrtF s.volatility s.tenor)
            (DECISION_VAR_YELLOW_THRESHOLD * calculate_var_scale_factor sqrtF s.volatility s.tenor)
            ≠ "green" then ["var_too_high"] else []))
          ++ (if evaluate_metric (extract_key_metrics s).2.2
            (DECISION_EPE_GREEN_THRESHOLD * calculate_epe_scale_factor rpow07 s.volatility s.tenor)
            (DECISION_EPE_YELLOW_THRESHOLD * calculate_epe_scale_factor rpow07 s.volatility s.tenor)
            ≠ "green" then ["epe_too_high"] else []) =
        "npv_too_low" :: ((if evaluate_metric (extract_key_metrics s).2.1
            (DECISION_VAR_GREEN_THRESHOLD * calculate_var_scale_factor sqrtF s.volatility s.tenor)
            (DECISION_VAR_YELLOW_THRESHOLD * calculate_var_scale_factor sqrtF s.volatility s.tenor)
            ≠ "green" then ["var_too_high"] else [])
          ++ (if evaluate_metric (extract_key_metrics s).2.2
            (DECISION_EPE_GREEN_THRESHOLD * calculate_epe_scale_factor rpow07 s.volatility s.tenor)
            (DECISION_EPE_YELLOW_THRESHOLD * calculate_epe_scale_factor rpow07 s.volatility s.tenor)
            ≠ "green" then ["epe_too_high"] else [])) := by
      simp
    rw [hcons]
    rw [if_neg (List.cons_ne_nil _ _)]
    simp only [calculate_adjustments]
    rw [if_pos (List.mem_cons_self _ _), if_pos ⟨hN, hT⟩]
    exact ⟨_, _, rfl, hdelta⟩

/-- Witness for C5 at a concrete summary (notional 1,000,000, tenor 1,
mean NPV 3,000 = 0.3% of notional). -/
theorem npv_below_yellow_red_witness :
    (0 : ℚ) < (⟨1000000, 1, 3 / 200, 3000, 1 / 4, 0, 0⟩ : SummaryResults).notional
    ∧ (0 : ℚ) < (⟨1000000, 1, 3 / 200, 3000, 1 / 4, 0, 0⟩ : SummaryResults).tenor
    ∧ (⟨1000000, 1, 3 / 200, 3000, 1 / 4, 0, 0⟩ : SummaryResults).npv_mean
      = 3 / 1000 * (⟨1000000, 1, 3 / 200, 3000, 1 / 4, 0, 0⟩ : SummaryResults).notional
    ∧ ((evaluate_trade (fun x => x) (fun x => x)
          ⟨1000000, 1, 3 / 200, 3000, 1 / 4, 0, 0⟩).npv_status = "red"
      ∧ (evaluate_trade (fun x => x) (fun x => x)
          ⟨1000000, 1, 3 / 200, 3000, 1 / 4, 0, 0⟩).overall_status = "red"
      ∧ "npv_too_low" ∈ (evaluate_trade (fun x => x) (fun x => x)
          ⟨1000000, 1, 3 / 200, 3000, 1 / 4, 0, 0⟩).issues
      ∧ ∃ d new_spread, (evaluate_trade (fun x => x) (fun x => x)
            ⟨1000000, 1, 3 / 200, 3000, 1 / 4, 0, 0⟩).adjustments.spread_adjustment
          = some (d, new_spread) ∧ 0 < d) :=
  ⟨by norm_num, by norm_num, by norm_num,
    npv_below_yellow_gives_red_and_spread_adjustment (fun x => x) (fun x => x)
      ⟨1000000, 1, 3 / 200, 3000, 1 / 4, 0, 0⟩
      (by norm_num) (by norm_num) (by norm_num)⟩

end TRS
